import Mathlib

/-
Verification of the Safe Mutation & Iterative-Repair Engine of the
automated_devops_agent repository.

The Python source is shallowly embedded: file-system state is explicit
(`AFState`, `PState`), external collaborators (pytest, google search) are
oracles passed as function arguments, and fallible control flow becomes
`Except`.  Every definition mirrors the corresponding function of
`automated_devops_agent/tools.py` or `automated_devops_agent/pipelines.py`;
the doc comment of each definition names its source.
-/

namespace DevOpsAgent

/-- Substring scan over character lists: does `needle` occur contiguously in
the list? -/
def containsSubAux (needle : List Char) : List Char → Bool
  | [] => needle.isEmpty
  | c :: rest => needle.isPrefixOf (c :: rest) || containsSubAux needle rest

/-- Python's substring test `needle in hay`, used pervasively by the source
for keyword scanning. -/
def containsSub (needle hay : String) : Bool :=
  containsSubAux needle.toList hay.toList

/-- Python's `str.lower()` (ASCII letters; the keywords the source lowercases
are all ASCII). -/
def pyLower (s : String) : String :=
  String.mk (s.toList.map Char.toLower)

/-- Accumulator pass for `splitNewline`. -/
def splitNewlineAux : List Char → List Char → List String
  | [], cur => [String.mk cur.reverse]
  | c :: rest, cur =>
    if c = '\n' then String.mk cur.reverse :: splitNewlineAux rest []
    else splitNewlineAux rest (c :: cur)

/-- Python's `str.split('\n')`: the pieces between newline characters, with
an empty piece at each boundary run (so the empty string yields `[""]`). -/
def splitNewline (s : String) : List String :=
  splitNewlineAux s.toList []

/-- Python's `str.strip()`: leading and trailing whitespace removed. -/
def pyStrip (s : String) : String :=
  String.mk (((s.toList.dropWhile Char.isWhitespace).reverse.dropWhile
    Char.isWhitespace).reverse)

/-- Python's `str.splitlines()` restricted to the newline character: a
trailing newline does not contribute an empty final line, and the empty
string has no lines. -/
def pySplitlines (s : String) : List String :=
  if s.toList.isEmpty then []
  else
    let parts := splitNewline s
    if s.toList.getLast? = some '\n' then parts.dropLast else parts

/- ----------------------------------------------------------------------
tools.attempt_autonomous_fix  (tools.py lines 670-777)
---------------------------------------------------------------------- -/

/-- File-system state visible to `attempt_autonomous_fix`: content of the
target file (`none` when it does not exist), content of the backup artifact
`target_file + ".bak"` (`none` when absent), and existence of the test
file. -/
structure AFState where
  target : Option String
  backup : Option String
  testFileExists : Bool
deriving DecidableEq

/-- Terminal outcome of `attempt_autonomous_fix`, one constructor per return
site of the source: the two early `ERROR: ... not found` returns, the
`Failed to write fix` return, the `SUCCESS` return, the
`FAILURE ... Automatic Rollback Executed` return, and the
`CRITICAL ERROR ... Emergency rollback` return. -/
inductive FixOutcome where
  | targetNotFound
  | testNotFound
  | writeFailed
  | success
  | rolledBack
  | criticalError
deriving DecidableEq

/-- The source's verification predicate (tools.py line 733):
`"passed" in test_output.lower() and "failed" not in test_output.lower()`. -/
def testsPassAF (testOutput : String) : Bool :=
  containsSub "passed" (pyLower testOutput) && !containsSub "failed" (pyLower testOutput)

/-- tools.attempt_autonomous_fix.  `writeOk` is false when the
`open(target_file, 'w')` write raises; `excDuringTest` is true when an
unexpected exception occurs after the fix was applied (caught by the outer
handler, which restores from the backup when it exists); `pytestOut` is the
string returned by the external `run_pytest` collaborator.  Backup creation,
restore and removal are modelled as succeeding, as in the source's expected
paths. -/
def attempt_autonomous_fix (st : AFState) (proposed : String) (writeOk : Bool)
    (excDuringTest : Bool) (pytestOut : String) : FixOutcome × AFState :=
  match st.target with
  | none => (.targetNotFound, st)
  | some orig =>
    if !st.testFileExists then
      (.testNotFound, st)
    else
      -- Step 1: shutil.copy2(target_file, backup_path)
      let st1 : AFState := { st with backup := some orig }
      -- Step 2: apply the fix
      if !writeOk then
        -- restore immediately, remove backup
        (.writeFailed, { st1 with target := some orig, backup := none })
      else
        let st2 : AFState := { st1 with target := some proposed }
        if excDuringTest then
          -- outer except: backup exists, so emergency restore and removal
          (.criticalError, { st2 with target := some orig, backup := none })
        else
          -- Step 3/4: run tests, then keep or roll back
          if testsPassAF pytestOut then
            (.success, { st2 with backup := none })
          else
            (.rolledBack, { st2 with target := some orig, backup := none })

/- ----------------------------------------------------------------------
pipelines.RefactoringPipeline  (pipelines.py lines 15-291)
---------------------------------------------------------------------- -/

/-- File-system state of the refactoring pipeline: the target file and the
`.backup` artifact produced by `_create_backup`. -/
structure PState where
  file : Option String
  backup : Option String
deriving DecidableEq

/-- Outcome of `RefactoringPipeline._run_tests`: no tests directory
(assumed success), a pytest run with its return code, a 60s timeout
(failure), or pytest not installed (assumed success). -/
inductive TestRun where
  | noTestsDir
  | ran (returncode : Int)
  | timedOut
  | pytestMissing
deriving DecidableEq

/-- The success flag `_run_tests` computes for each outcome. -/
def testRunSuccess : TestRun → Bool
  | .noTestsDir => true
  | .ran rc => rc == 0
  | .timedOut => false
  | .pytestMissing => true

/-- Where (if anywhere) an unexpected exception interrupts
`RefactoringPipeline.execute`: before or after `_create_backup` completes. -/
inductive ExcPoint where
  | noExc
  | beforeBackup
  | afterBackup
deriving DecidableEq

/-- `RefactoringPipeline._analyze_code`'s refactoring trigger:
more than 100 lines or more than 3000 bytes. -/
def needs_refactoring (content : String) : Bool :=
  decide (100 < (pySplitlines content).length) || decide (3000 < content.utf8ByteSize)

/-- pipelines.RefactoringPipeline.execute.  Returns the `status` string of
the result dict together with the final file-system state.  The refactoring
application itself is simulated in the source (`_apply_refactoring` writes
nothing), which the model mirrors.  On an exception the handler rolls back
when the backup artifact exists (`_rollback` moves the backup over the
file). -/
def refactoring_execute (st : PState) (tr : TestRun) (exc : ExcPoint) :
    String × PState :=
  match st.file with
  | none => ("error", st)
  | some content =>
    match exc with
    | .beforeBackup =>
      if st.backup.isSome then ("error", { file := st.backup, backup := none })
      else ("error", st)
    | e =>
      if !needs_refactoring content then
        ("skipped", st)
      else
        -- _create_backup: shutil.copy2(file, backup)
        let st1 : PState := { file := some content, backup := some content }
        -- _apply_refactoring: simulated, no file change
        match e with
        | .afterBackup =>
          ("error", { file := st1.backup, backup := none })
        | _ =>
          if testRunSuccess tr then
            ("success", { st1 with backup := none })
          else
            ("rollback", { file := st1.backup, backup := none })

/- ----------------------------------------------------------------------
pipelines.IterativeDebugger  (pipelines.py lines 294-539)
---------------------------------------------------------------------- -/

/-- Result of `IterativeDebugger._run_tests`: the success flag and the raw
output of the external runner. -/
structure TestResult where
  success : Bool
  output : String
deriving DecidableEq

/-- IterativeDebugger._run_tests (pipelines.py lines 411-437): the success
flag is `"All tests passed!" in result_str or "✅" in result_str`, computed
over the string `resultStr` returned by the external `run_pytest`
collaborator. -/
def run_tests_model (resultStr : String) : TestResult :=
  { success := containsSub "All tests passed!" resultStr || containsSub "✅" resultStr,
    output := resultStr }

/-- The `analysis` dict of `IterativeDebugger._analyze_error`. -/
structure ErrorAnalysis where
  errorType : String
  errorMessage : String
  suggestedFix : String
deriving DecidableEq

/-- The error-type cascade of `_analyze_error` (pipelines.py lines 459-468):
a fixed if/elif chain of substring tests on the raw output. -/
def extract_error_type (output : String) : String :=
  if containsSub "AssertionError" output then "AssertionError"
  else if containsSub "AttributeError" output then "AttributeError"
  else if containsSub "TypeError" output then "TypeError"
  else if containsSub "ValueError" output then "ValueError"
  else if containsSub "ImportError" output || containsSub "ModuleNotFoundError" output then
    "ImportError"
  else "Unknown"

/-- The excerpt loop of `_analyze_error` (pipelines.py lines 471-478): the
first line containing `"Error"` or `"FAILED"` is stripped and recorded,
followed by the stripped next line when one exists; `""` when no line
matches. -/
def extract_error_message : List String → String
  | [] => ""
  | [l] =>
    if containsSub "Error" l || containsSub "FAILED" l then pyStrip l else ""
  | l :: next :: rest =>
    if containsSub "Error" l || containsSub "FAILED" l then
      pyStrip l ++ "\n" ++ pyStrip next
    else
      extract_error_message (next :: rest)

/-- IterativeDebugger._analyze_error (pipelines.py lines 439-480): total and
deterministic; `suggested_fix` is never filled in by the source. -/
def analyze_error (output : String) : ErrorAnalysis :=
  { errorType := extract_error_type output,
    errorMessage := extract_error_message (splitNewline output),
    suggestedFix := "" }

/-- IterativeDebugger._search_for_solution (pipelines.py lines 482-502):
builds the query `"Python {error_type} fix"` and hands it to the external
search collaborator `searchOracle` (whose failure branch also yields a
string, so the call always returns a string). -/
def search_for_solution (searchOracle : String → String) (ea : ErrorAnalysis) : String :=
  searchOracle ("Python " ++ ea.errorType ++ " fix")

/-- The `fix_info` dict of `IterativeDebugger._generate_and_apply_fix`. -/
structure FixInfo where
  ty : String
  message : String
  errorAddressed : String
  searchContext : String
deriving DecidableEq

/-- IterativeDebugger._generate_and_apply_fix (pipelines.py lines 504-534):
the fix is simulated — no file content is written — so the code file
content `file` passes through unchanged.  `search_context` is `"Used"`
exactly when `searchResults` is a truthy (non-empty) string. -/
def generate_and_apply_fix (file : String) (ea : ErrorAnalysis)
    (searchResults : Option String) : FixInfo × String :=
  ({ ty := "simulated",
     message := "In production, would generate and apply actual fix using debugging_agent",
     errorAddressed := ea.errorType,
     searchContext :=
       match searchResults with
       | some s => if s.toList.isEmpty then "Not used" else "Used"
       | none => "Not used" },
   file)

/-- One record of `self.attempts` (pipelines.py lines 387-394); the
wall-clock timestamp field is omitted from the model. -/
structure RepairAttempt where
  attemptNumber : Nat
  testResult : TestResult
  errorAnalysis : ErrorAnalysis
  searchResults : Option String
  fixApplied : FixInfo
deriving DecidableEq

/-- The dict returned by `debug_until_fixed` on normal termination. -/
structure SessionResult where
  status : String
  attemptsCount : Int
  attempts : List RepairAttempt
  finalTestResult : TestResult
  message : String
deriving DecidableEq

/-- Observable outcome of one `debug_until_fixed` run: the returned dict (or
the uncaught `UnboundLocalError` the source raises when the loop body never
ran), plus an instrumentation trace counting collaborator invocations and
the final content of the code file. -/
structure SessionOutput where
  result : Except String SessionResult
  searchCalls : Nat
  fixCalls : Nat
  finalFile : String

/-- The `for attempt_num in range(1, max_retries + 1)` loop of
`debug_until_fixed` (pipelines.py lines 354-409).  Arguments of the
recursion: remaining iterations, current `attempt_num`, current code-file
content, the accumulated `self.attempts`, the two invocation counters, and
the last bound value of the Python local `test_result` (`none` before the
first iteration — referencing it then is the source's uncaught
`UnboundLocalError`). -/
def debugLoop (po : Nat → String) (so : String → String) (mr : Int) :
    Nat → Nat → String → List RepairAttempt → Nat → Nat → Option TestResult →
    SessionOutput
  | 0, _, file, _, sc, fc, none =>
    { result := .error "UnboundLocalError: local variable test_result referenced before assignment",
      searchCalls := sc, fixCalls := fc, finalFile := file }
  | 0, _, file, acc, sc, fc, some t =>
    { result := .ok
        { status := "max_retries",
          attemptsCount := mr,
          attempts := acc,
          finalTestResult := t,
          message := "Failed to fix after " ++ toString mr ++ " attempts" },
      searchCalls := sc, fixCalls := fc, finalFile := file }
  | remaining + 1, n, file, acc, sc, fc, _ =>
    let t := run_tests_model (po n)
    if t.success then
      { result := .ok
          { status := "success",
            attemptsCount := (n : Int),
            attempts := acc,
            finalTestResult := t,
            message := "Successfully fixed in " ++ toString n ++ " attempt(s)" },
        searchCalls := sc, fixCalls := fc, finalFile := file }
    else
      let ea := analyze_error t.output
      let sr : Option String := if 2 ≤ n then some (search_for_solution so ea) else none
      let sc2 := if 2 ≤ n then sc + 1 else sc
      let fixAndFile := generate_and_apply_fix file ea sr
      debugLoop po so mr remaining (n + 1) fixAndFile.2
        (acc ++ [{ attemptNumber := n, testResult := t, errorAnalysis := ea,
                   searchResults := sr, fixApplied := fixAndFile.1 }])
        sc2 (fc + 1) (some t)

/-- The state `IterativeDebugger.__init__` stores (pipelines.py lines
323-335); `attempts` starts empty and is owned by `debug_until_fixed`. -/
structure Debugger where
  testFile : String
  codeFile : String
  maxRetries : Int

/-- IterativeDebugger.__init__ with its `max_retries: int = 5` default. -/
def mkDebugger (testFile codeFile : String) (maxRetries : Int := 5) : Debugger :=
  { testFile := testFile, codeFile := codeFile, maxRetries := maxRetries }

/-- IterativeDebugger.debug_until_fixed (pipelines.py lines 337-409): runs
the loop starting at attempt 1 with empty history.  `po n` is the external
`run_pytest` output observed at attempt `n`; `so` is the external search
collaborator; `file` is the content of the code file when the session
begins. -/
def Debugger.debugUntilFixed (d : Debugger) (po : Nat → String)
    (so : String → String) (file : String) : SessionOutput :=
  debugLoop po so d.maxRetries d.maxRetries.toNat 1 file [] 0 0 none

/-- The `status` field of the returned dict, `none` when the run raised. -/
def SessionOutput.status? (o : SessionOutput) : Option String :=
  match o.result with
  | .ok s => some s.status
  | .error _ => none

/-- The `attempts_count` field of the returned dict, `none` when the run
raised. -/
def SessionOutput.count? (o : SessionOutput) : Option Int :=
  match o.result with
  | .ok s => some s.attemptsCount
  | .error _ => none

/-- The `attempts` field of the returned dict, `none` when the run raised. -/
def SessionOutput.attempts? (o : SessionOutput) : Option (List RepairAttempt) :=
  match o.result with
  | .ok s => some s.attempts
  | .error _ => none

/- ----------------------------------------------------------------------
The spec's reading of the classifier, and the ordered rule table
---------------------------------------------------------------------- -/

/-- The error keyword starting at this position of the text, if any
(the source's keywords, with `ModuleNotFoundError` mapped to
`ImportError` as in the cascade). -/
def keywordAt (l : List Char) : Option String :=
  if "AssertionError".toList.isPrefixOf l then some "AssertionError"
  else if "AttributeError".toList.isPrefixOf l then some "AttributeError"
  else if "TypeError".toList.isPrefixOf l then some "TypeError"
  else if "ValueError".toList.isPrefixOf l then some "ValueError"
  else if "ImportError".toList.isPrefixOf l then some "ImportError"
  else if "ModuleNotFoundError".toList.isPrefixOf l then some "ImportError"
  else none

/-- Single left-to-right pass over the text, reporting the keyword whose
occurrence starts earliest. -/
def specScanAux : List Char → String
  | [] => "Unknown"
  | c :: rest =>
    match keywordAt (c :: rest) with
    | some k => k
    | none => specScanAux rest

/-- Modelled from the spec: "selecting the first matching category found via
a single left-to-right scan" of the output text — the category whose keyword
appears earliest in the text wins.  Stated only to compare against
`extract_error_type`, which the source actually implements. -/
def specScanCategory (output : String) : String :=
  specScanAux output.toList

/-- The classifier's keyword table in the order the source's if/elif cascade
tests it: category paired with the substrings that select it. -/
def priorityRules : List (String × List String) :=
  [("AssertionError", ["AssertionError"]),
   ("AttributeError", ["AttributeError"]),
   ("TypeError", ["TypeError"]),
   ("ValueError", ["ValueError"]),
   ("ImportError", ["ImportError", "ModuleNotFoundError"])]

/-- First-match classification over the ordered rule table: the first
category in priority order with a keyword occurring anywhere in the output,
defaulting to `"Unknown"`. -/
def priorityClassify (output : String) : String :=
  match priorityRules.find? (fun r => r.2.any (fun k => containsSub k output)) with
  | some r => r.1
  | none => "Unknown"

/- ----------------------------------------------------------------------
tools.aggregate_reports  (tools.py lines 226-377)
---------------------------------------------------------------------- -/

/-- The verdict token of the FINAL RECOMMENDATION section. -/
inductive Verdict where
  | REJECT
  | CONDITIONAL
  | APPROVE
deriving DecidableEq

/-- One finding appended to `critical_issues`, `warnings` or `suggestions`
by `aggregate_reports`; each constructor stands for the exact string the
source appends (presentation prefixes elided):
`securityLine line` for `"🔴 SECURITY: " + line.strip()`,
`securityGeneric` for the fallback security item,
`qualityLowScore num den` / `qualityBelowAvg num den` for the score items
(the parsed score being the exact value num/den),
`qualityGradeF` / `qualityGradeD` / `qualityGradeC` for the grade items, and
`testingVeryLow c` / `testingInsufficient c` / `testingGood c` for the
coverage items. -/
inductive Item where
  | securityLine (line : String)
  | securityGeneric
  | qualityLowScore (num den : ℕ)
  | qualityBelowAvg (num den : ℕ)
  | qualityGradeF
  | qualityGradeD
  | qualityGradeC
  | testingVeryLow (c : ℕ)
  | testingInsufficient (c : ℕ)
  | testingGood (c : ℕ)
deriving DecidableEq

/-- Numeric value of a digit run. -/
def natOfDigits (l : List Char) : Nat :=
  l.foldl (fun a c => a * 10 + (c.toNat - 48)) 0

/-- Attempt to match the regex `(\d+\.?\d*)/10` at this exact position:
a greedy digit run, an optional dot with a greedy digit run, then the
literal `/10`.  The captured decimal is returned exactly as the pair
(numerator, denominator): the digits read as an integer over the power of
ten given by the fraction length, so `"3.0"` is `(30, 10)` — the value the
source obtains as a float. -/
def tryScoreAt (l : List Char) : Option (Nat × Nat) :=
  let intRun := l.takeWhile Char.isDigit
  let rest1 := l.dropWhile Char.isDigit
  if intRun.isEmpty then none
  else
    match rest1 with
    | '.' :: rest2 =>
      let fracRun := rest2.takeWhile Char.isDigit
      let rest3 := rest2.dropWhile Char.isDigit
      if "/10".toList.isPrefixOf rest3 then
        some (natOfDigits (intRun ++ fracRun), 10 ^ fracRun.length)
      else none
    | rest =>
      if "/10".toList.isPrefixOf rest then some (natOfDigits intRun, 1)
      else none

/-- Leftmost match of `re.search(r'(\d+\.?\d*)/10', quality_report)`. -/
def scanScore : List Char → Option (Nat × Nat)
  | [] => none
  | c :: rest =>
    match tryScoreAt (c :: rest) with
    | some q => some q
    | none => scanScore rest

/-- The parsed quality score as an exact (numerator, denominator) pair,
when the score regex matches. -/
def findScore (s : String) : Option (Nat × Nat) :=
  scanScore s.toList

/-- Attempt to match the regex `(\d+)%` at this exact position. -/
def tryCoverageAt (l : List Char) : Option ℕ :=
  let run := l.takeWhile Char.isDigit
  let rest := l.dropWhile Char.isDigit
  if run.isEmpty then none
  else if "%".toList.isPrefixOf rest then some (natOfDigits run)
  else none

/-- Leftmost match of `re.search(r'(\d+)%', test_coverage_notes)`. -/
def scanCoverage : List Char → Option ℕ
  | [] => none
  | c :: rest =>
    match tryCoverageAt (c :: rest) with
    | some n => some n
    | none => scanCoverage rest

/-- The parsed coverage percentage, when the coverage regex matches. -/
def findCoverage (s : String) : Option ℕ :=
  scanCoverage s.toList

/-- The FINAL RECOMMENDATION cascade of `aggregate_reports` (tools.py lines
361-373): any critical issue gives REJECT, else any warning gives
CONDITIONAL, else APPROVE. -/
def computeVerdict (critical warnings : List Item) : Verdict :=
  if critical.isEmpty then
    (if warnings.isEmpty then .APPROVE else .CONDITIONAL)
  else .REJECT

/-- The structured content of the report `aggregate_reports` builds. -/
structure AggregateResult where
  critical : List Item
  warnings : List Item
  suggestions : List Item
  verdict : Verdict
deriving DecidableEq

/-- The keyword list of the security line scan (tools.py line 260). -/
def securityWords : List String :=
  ["sql injection", "xss", "critical", "high severity"]

/-- tools.aggregate_reports: the severity-bucketing phase and the final
verdict.  Mirrors the source's execution order — security first (a guard of
case-sensitive `Critical`/`High`/`SQL` or case-insensitive `injection`
tests, then a first-matching-line scan with a generic fallback), then the
quality score regex, then the grade substrings, then the coverage regex.
The formatted report text around these findings is presentation and is not
modelled. -/
def aggregate_reports (securityReport qualityReport testCoverageNotes : String) :
    AggregateResult :=
  let criticalSec : List Item :=
    if !securityReport.toList.isEmpty &&
        (containsSub "Critical" securityReport || containsSub "High" securityReport ||
         containsSub "SQL" securityReport ||
         containsSub "injection" (pyLower securityReport)) then
      match (splitNewline securityReport).find?
          (fun line => securityWords.any (fun w => containsSub w (pyLower line))) with
      | some line => [.securityLine (pyStrip line)]
      | none => [.securityGeneric]
    else []
  let scoreItems : List Item × List Item :=
    if !qualityReport.toList.isEmpty then
      match findScore qualityReport with
      | some q =>
        if q.1 < 5 * q.2 then ([.qualityLowScore q.1 q.2], [])
        else if q.1 < 7 * q.2 then ([], [.qualityBelowAvg q.1 q.2])
        else ([], [])
      | none => ([], [])
    else ([], [])
  let gradeItems : List Item × List Item × List Item :=
    if !qualityReport.toList.isEmpty then
      if containsSub "Grade: F" qualityReport || containsSub "Grade F" qualityReport then
        ([.qualityGradeF], [], [])
      else if containsSub "Grade: D" qualityReport || containsSub "Grade D" qualityReport then
        ([], [.qualityGradeD], [])
      else if containsSub "Grade: C" qualityReport || containsSub "Grade C" qualityReport then
        ([], [], [.qualityGradeC])
      else ([], [], [])
    else ([], [], [])
  let covItems : List Item × List Item × List Item :=
    if !testCoverageNotes.toList.isEmpty then
      match findCoverage testCoverageNotes with
      | some c =>
        if c < 50 then ([.testingVeryLow c], [], [])
        else if c < 80 then ([], [.testingInsufficient c], [])
        else ([], [], [.testingGood c])
      | none => ([], [], [])
    else ([], [], [])
  let critical := criticalSec ++ scoreItems.1 ++ gradeItems.1 ++ covItems.1
  let warnings := scoreItems.2 ++ gradeItems.2.1 ++ covItems.2.1
  let suggestions := gradeItems.2.2 ++ covItems.2.2
  { critical := critical,
    warnings := warnings,
    suggestions := suggestions,
    verdict := computeVerdict critical warnings }

/- ----------------------------------------------------------------------
Concrete collaborator stubs used to exercise the model
---------------------------------------------------------------------- -/

/-- A pytest collaborator whose output never reads as a pass. -/
def failingPytestOutput : Nat → String := fun _ => "no"

/-- A pytest collaborator whose output always reads as a pass. -/
def passingPytestOutput : Nat → String := fun _ => "All tests passed!"

/-- A search collaborator returning a fixed result string. -/
def stubSearchOracle : String → String := fun _ => "sr"

/-- An output in which `TypeError` occurs strictly before `AssertionError`. -/
def c6Output : String := "TypeError: unsupported operand\nE AssertionError: boom"

/-- The single attempt record of a one-retry session against
`failingPytestOutput` and `stubSearchOracle`. -/
def c5AttemptRecord : RepairAttempt :=
  { attemptNumber := 1,
    testResult := { success := false, output := "no" },
    errorAnalysis := { errorType := "Unknown", errorMessage := "", suggestedFix := "" },
    searchResults := none,
    fixApplied :=
      { ty := "simulated",
        message := "In production, would generate and apply actual fix using debugging_agent",
        errorAddressed := "Unknown",
        searchContext := "Not used" } }

/-- The record an iteration of `debugLoop` appends at attempt `n` with test
result `t`: spelled out for use in the loop's unfolding lemmas. -/
def stepRecord (so : String → String) (file : String) (n : Nat) (t : TestResult) :
    RepairAttempt :=
  { attemptNumber := n,
    testResult := t,
    errorAnalysis := analyze_error t.output,
    searchResults :=
      if 2 ≤ n then some (search_for_solution so (analyze_error t.output)) else none,
    fixApplied :=
      (generate_and_apply_fix file (analyze_error t.output)
        (if 2 ≤ n then some (search_for_solution so (analyze_error t.output)) else none)).1 }

/- ----------------------------------------------------------------------
Theorems
---------------------------------------------------------------------- -/

/-- Unfolding lemma: an iteration whose verification passes returns at
once. -/
lemma debugLoop_step_pass (po : Nat → String) (so : String → String) (mr : Int)
    (r n : Nat) (file : String) (acc : List RepairAttempt) (sc fc : Nat)
    (lastT : Option TestResult)
    (hp : (run_tests_model (po n)).success = true) :
    debugLoop po so mr (r + 1) n file acc sc fc lastT =
    { result := .ok
        { status := "success",
          attemptsCount := (n : Int),
          attempts := acc,
          finalTestResult := run_tests_model (po n),
          message := "Successfully fixed in " ++ toString n ++ " attempt(s)" },
      searchCalls := sc, fixCalls := fc, finalFile := file } := by
  simp [debugLoop, hp]

/-- Unfolding lemma: an iteration whose verification fails appends one
attempt record and recurses. -/
lemma debugLoop_step_fail (po : Nat → String) (so : String → String) (mr : Int)
    (r n : Nat) (file : String) (acc : List RepairAttempt) (sc fc : Nat)
    (lastT : Option TestResult)
    (hf : (run_tests_model (po n)).success = false) :
    debugLoop po so mr (r + 1) n file acc sc fc lastT =
    debugLoop po so mr r (n + 1) file
      (acc ++ [stepRecord so file n (run_tests_model (po n))])
      (if 2 ≤ n then sc + 1 else sc) (fc + 1) (some (run_tests_model (po n))) := by
  simp [debugLoop, hf, stepRecord, generate_and_apply_fix]

/-- C1: Atomicity of the safe mutation transaction — for every call to
`attempt_autonomous_fix` where both the target and the test file exist, the
final target content is the proposed code exactly on the success outcome and
the original content on every other outcome (rollback, write failure,
critical error); no third state is possible. -/
theorem c1_atomicity (st : AFState) (proposed : String) (writeOk excDuringTest : Bool)
    (pytestOut : String) (orig : String)
    (htarget : st.target = some orig) (htest : st.testFileExists = true) :
    ((attempt_autonomous_fix st proposed writeOk excDuringTest pytestOut).1 =
        FixOutcome.success ∧
      (attempt_autonomous_fix st proposed writeOk excDuringTest pytestOut).2.target =
        some proposed) ∨
    ((attempt_autonomous_fix st proposed writeOk excDuringTest pytestOut).1 ≠
        FixOutcome.success ∧
      (attempt_autonomous_fix st proposed writeOk excDuringTest pytestOut).2.target =
        some orig) := by
  obtain ⟨tgt, bak, tfe⟩ := st
  simp only at htarget htest
  subst htarget htest
  cases writeOk <;> cases excDuringTest <;>
    rcases hp : testsPassAF pytestOut with _ | _ <;>
    simp [attempt_autonomous_fix, hp]

/-- C1 witness: a concrete passing run keeps the proposed content. -/
theorem c1_atomicity_witness :
    (AFState.mk (some "orig") none true).target = some "orig" ∧
    (AFState.mk (some "orig") none true).testFileExists = true ∧
    (((attempt_autonomous_fix ⟨some "orig", none, true⟩ "new" true false "1 passed").1 =
        FixOutcome.success ∧
      (attempt_autonomous_fix ⟨some "orig", none, true⟩ "new" true false "1 passed").2.target =
        some "new") ∨
    ((attempt_autonomous_fix ⟨some "orig", none, true⟩ "new" true false "1 passed").1 ≠
        FixOutcome.success ∧
      (attempt_autonomous_fix ⟨some "orig", none, true⟩ "new" true false "1 passed").2.target =
        some "orig")) :=
  ⟨rfl, rfl, c1_atomicity ⟨some "orig", none, true⟩ "new" true false "1 passed" "orig" rfl rfl⟩

/-- C2: No residual backup — after `attempt_autonomous_fix` reaches any of
its four terminal mutation outcomes (which is exactly when both files
exist), the `.bak` artifact is gone; and a `RefactoringPipeline.execute` run
started with no pre-existing backup artifact ends with none, on every
terminal outcome. -/
theorem c2_no_residual_backup (st : AFState) (proposed : String)
    (writeOk excDuringTest : Bool) (pytestOut : String)
    (ps : PState) (tr : TestRun) (exc : ExcPoint)
    (htarget : st.target.isSome = true) (htest : st.testFileExists = true)
    (hb : ps.backup = none) :
    (attempt_autonomous_fix st proposed writeOk excDuringTest pytestOut).2.backup = none ∧
    (refactoring_execute ps tr exc).2.backup = none := by
  constructor
  · obtain ⟨tgt, bak, tfe⟩ := st
    simp only at htarget htest
    subst htest
    obtain ⟨orig, rfl⟩ := Option.isSome_iff_exists.mp htarget
    cases writeOk <;> cases excDuringTest <;>
      rcases hp : testsPassAF pytestOut with _ | _ <;>
      simp [attempt_autonomous_fix, hp]
  · obtain ⟨f, b⟩ := ps
    simp only at hb
    subst hb
    rcases f with _ | content
    · simp [refactoring_execute]
    · rcases exc with _ | _ | _ <;>
        rcases hn : needs_refactoring content with _ | _ <;>
        rcases ht : testRunSuccess tr with _ | _ <;>
        simp [refactoring_execute, hn, ht]

/-- C2 witness: a concrete passing fix and a concrete passing pipeline run
both finish with no backup artifact. -/
theorem c2_no_residual_backup_witness :
    (AFState.mk (some "orig") none true).target.isSome = true ∧
    (AFState.mk (some "orig") none true).testFileExists = true ∧
    (PState.mk (some "code") none).backup = none ∧
    ((attempt_autonomous_fix ⟨some "orig", none, true⟩ "new" true false "1 passed").2.backup =
      none ∧
    (refactoring_execute ⟨some "code", none⟩ (.ran 0) .noExc).2.backup = none) :=
  ⟨rfl, rfl, rfl,
    c2_no_residual_backup ⟨some "orig", none, true⟩ "new" true false "1 passed"
      ⟨some "code", none⟩ (.ran 0) .noExc rfl rfl rfl⟩

/-- When the verifier fails on every run, the loop (resumed with any bound
`test_result`) exhausts its remaining budget, terminates as `max_retries`
with one new record per remaining iteration, and never touches the code
file. -/
lemma debugLoop_allFail (po : Nat → String) (so : String → String) (mr : Int)
    (h : ∀ m, (run_tests_model (po m)).success = false) :
    ∀ (remaining n : Nat) (file : String) (acc : List RepairAttempt) (sc fc : Nat)
      (t : TestResult),
      (debugLoop po so mr remaining n file acc sc fc (some t)).status? =
        some "max_retries" ∧
      (debugLoop po so mr remaining n file acc sc fc (some t)).attempts?.map List.length =
        some (acc.length + remaining) ∧
      (debugLoop po so mr remaining n file acc sc fc (some t)).count? = some mr ∧
      (debugLoop po so mr remaining n file acc sc fc (some t)).finalFile = file := by
  intro remaining
  induction remaining with
  | zero =>
    intro n file acc sc fc t
    simp [debugLoop, SessionOutput.status?, SessionOutput.attempts?, SessionOutput.count?]
  | succ r ih =>
    intro n file acc sc fc t
    rw [debugLoop_step_fail po so mr r n file acc sc fc (some t) (h n)]
    refine ⟨(ih _ _ _ _ _ _).1, ?_, (ih _ _ _ _ _ _).2.2.1, (ih _ _ _ _ _ _).2.2.2⟩
    rw [(ih _ _ _ _ _ _).2.1]
    simp only [List.length_append, List.length_cons, List.length_nil, Option.some.injEq]
    omega

/-- When the verifier first passes after `d` consecutive failures, the loop
(with more than `d` iterations of budget left) terminates as `success` with
`d` new records and an untouched code file. -/
lemma debugLoop_firstSuccess (po : Nat → String) (so : String → String) (mr : Int) :
    ∀ (d n rem : Nat) (file : String) (acc : List RepairAttempt) (sc fc : Nat)
      (lastT : Option TestResult),
      (∀ j, n ≤ j → j < n + d → (run_tests_model (po j)).success = false) →
      (run_tests_model (po (n + d))).success = true →
      d < rem →
      (debugLoop po so mr rem n file acc sc fc lastT).status? = some "success" ∧
      (debugLoop po so mr rem n file acc sc fc lastT).count? = some ((n + d : Nat) : Int) ∧
      (debugLoop po so mr rem n file acc sc fc lastT).attempts?.map List.length =
        some (acc.length + d) ∧
      (debugLoop po so mr rem n file acc sc fc lastT).finalFile = file := by
  intro d
  induction d with
  | zero =>
    intro n rem file acc sc fc lastT hfail hpass hlt
    obtain ⟨r, rfl⟩ : ∃ r, rem = r + 1 := ⟨rem - 1, by omega⟩
    rw [debugLoop_step_pass po so mr r n file acc sc fc lastT (by simpa using hpass)]
    simp [SessionOutput.status?, SessionOutput.attempts?, SessionOutput.count?]
  | succ d ih =>
    intro n rem file acc sc fc lastT hfail hpass hlt
    obtain ⟨r, rfl⟩ : ∃ r, rem = r + 1 := ⟨rem - 1, by omega⟩
    have hfn : (run_tests_model (po n)).success = false := hfail n le_rfl (by omega)
    rw [debugLoop_step_fail po so mr r n file acc sc fc lastT hfn]
    have hp2 : (run_tests_model (po (n + 1 + d))).success = true := by
      have he : n + 1 + d = n + (d + 1) := by omega
      rw [he]; exact hpass
    obtain ⟨H1, H2, H3, H4⟩ :=
      ih (n + 1) r file (acc ++ [stepRecord so file n (run_tests_model (po n))])
        (if 2 ≤ n then sc + 1 else sc) (fc + 1) (some (run_tests_model (po n)))
        (fun j hj1 hj2 => hfail j (by omega) (by omega)) hp2 (by omega)
    refine ⟨H1, ?_, ?_, H4⟩
    · rw [H2]
      simp only [Option.some.injEq, Nat.cast_inj]
      omega
    · rw [H3]
      simp only [List.length_append, List.length_cons, List.length_nil, Option.some.injEq]
      omega

/-- Every record the loop ever appends satisfies the search-threshold
discipline: no search context at attempt 1, a search-result string from
attempt 2 on. -/
lemma debugLoop_searchInv (po : Nat → String) (so : String → String) (mr : Int) :
    ∀ (remaining n : Nat) (file : String) (acc : List RepairAttempt) (sc fc : Nat)
      (lastT : Option TestResult),
      (∀ r ∈ acc, (r.attemptNumber = 1 → r.searchResults = none) ∧
        (2 ≤ r.attemptNumber → r.searchResults.isSome = true)) →
      ∀ l, (debugLoop po so mr remaining n file acc sc fc lastT).attempts? = some l →
      ∀ r ∈ l, (r.attemptNumber = 1 → r.searchResults = none) ∧
        (2 ≤ r.attemptNumber → r.searchResults.isSome = true) := by
  intro remaining
  induction remaining with
  | zero =>
    intro n file acc sc fc lastT hacc l hl r hr
    cases lastT with
    | none => simp [debugLoop, SessionOutput.attempts?] at hl
    | some t =>
      simp only [debugLoop, SessionOutput.attempts?, Option.some.injEq] at hl
      exact hacc r (hl ▸ hr)
  | succ rem ih =>
    intro n file acc sc fc lastT hacc l hl r hr
    by_cases hp : (run_tests_model (po n)).success = true
    · rw [debugLoop_step_pass po so mr rem n file acc sc fc lastT hp] at hl
      simp only [SessionOutput.attempts?, Option.some.injEq] at hl
      exact hacc r (hl ▸ hr)
    · rw [debugLoop_step_fail po so mr rem n file acc sc fc lastT
        (by simpa using hp)] at hl
      refine ih (n + 1) file _ _ _ _ ?_ l hl r hr
      intro r2 hr2
      rcases List.mem_append.mp hr2 with hmem | hmem
      · exact hacc r2 hmem
      · have hrec : r2 = stepRecord so file n (run_tests_model (po n)) := by
          simpa using hmem
        subst hrec
        constructor
        · intro h1
          have hn1 : n = 1 := by simpa [stepRecord] using h1
          subst hn1
          simp [stepRecord]
        · intro h2
          have hn2 : 2 ≤ n := by simpa [stepRecord] using h2
          simp [stepRecord, hn2]

/-- C3: Exhausted-retries session — when the verifier fails on every run and
`max_retries = N ≥ 1`, `debug_until_fixed` records exactly N repair
attempts, returns status `"max_retries"` with `attempts_count = N`, and the
code file content is unchanged (no fix attempt writes anything). -/
theorem c3_exhausted_retries (po : Nat → String) (so : String → String)
    (t c file : String) (N : Int)
    (hN : 1 ≤ N)
    (hfail : ∀ n, (run_tests_model (po n)).success = false) :
    ((mkDebugger t c N).debugUntilFixed po so file).status? = some "max_retries" ∧
    ((mkDebugger t c N).debugUntilFixed po so file).attempts?.map List.length =
      some N.toNat ∧
    ((mkDebugger t c N).debugUntilFixed po so file).count? = some N ∧
    ((mkDebugger t c N).debugUntilFixed po so file).finalFile = file := by
  simp only [Debugger.debugUntilFixed, mkDebugger]
  obtain ⟨r, hr⟩ : ∃ r, N.toNat = r + 1 := ⟨N.toNat - 1, by omega⟩
  rw [hr, debugLoop_step_fail po so N r 1 file [] 0 0 none (hfail 1)]
  refine ⟨(debugLoop_allFail po so N hfail _ _ _ _ _ _ _).1, ?_,
    (debugLoop_allFail po so N hfail _ _ _ _ _ _ _).2.2.1,
    (debugLoop_allFail po so N hfail _ _ _ _ _ _ _).2.2.2⟩
  rw [(debugLoop_allFail po so N hfail _ _ _ _ _ _ _).2.1]
  simp only [List.length_append, List.length_cons, List.length_nil, Option.some.injEq]
  omega

/-- C3 witness: two retries against an always-failing verifier yield two
records, status `"max_retries"`, count 2 and an untouched file. -/
theorem c3_exhausted_retries_witness :
    ((mkDebugger "t" "c" 2).debugUntilFixed failingPytestOutput stubSearchOracle
        "f").status? = some "max_retries" ∧
    ((mkDebugger "t" "c" 2).debugUntilFixed failingPytestOutput stubSearchOracle
        "f").attempts?.map List.length = some (2 : Int).toNat ∧
    ((mkDebugger "t" "c" 2).debugUntilFixed failingPytestOutput stubSearchOracle
        "f").count? = some 2 ∧
    ((mkDebugger "t" "c" 2).debugUntilFixed failingPytestOutput stubSearchOracle
        "f").finalFile = "f" :=
  c3_exhausted_retries failingPytestOutput stubSearchOracle "t" "c" "f" 2
    (by decide) (fun n => rfl)

/-- C4: Early success — when the verifier passes on the very first run (and
the retry budget admits at least one attempt), the session returns status
`"success"` with `attempts_count = 1`, an empty attempts history, and
neither the search collaborator nor the fix-generation step is ever
invoked. -/
theorem c4_early_success (po : Nat → String) (so : String → String)
    (t c file : String) (N : Int)
    (hN : 1 ≤ N)
    (hpass : (run_tests_model (po 1)).success = true) :
    ((mkDebugger t c N).debugUntilFixed po so file).status? = some "success" ∧
    ((mkDebugger t c N).debugUntilFixed po so file).count? = some 1 ∧
    ((mkDebugger t c N).debugUntilFixed po so file).attempts? = some [] ∧
    ((mkDebugger t c N).debugUntilFixed po so file).searchCalls = 0 ∧
    ((mkDebugger t c N).debugUntilFixed po so file).fixCalls = 0 := by
  simp only [Debugger.debugUntilFixed, mkDebugger]
  obtain ⟨r, hr⟩ : ∃ r, N.toNat = r + 1 := ⟨N.toNat - 1, by omega⟩
  rw [hr, debugLoop_step_pass po so N r 1 file [] 0 0 none hpass]
  simp [SessionOutput.status?, SessionOutput.attempts?, SessionOutput.count?]

/-- C4 witness: the default budget with a first-run pass gives a one-attempt
success and zero collaborator invocations. -/
theorem c4_early_success_witness :
    ((mkDebugger "t" "c").debugUntilFixed passingPytestOutput stubSearchOracle
        "f").status? = some "success" ∧
    ((mkDebugger "t" "c").debugUntilFixed passingPytestOutput stubSearchOracle
        "f").count? = some 1 ∧
    ((mkDebugger "t" "c").debugUntilFixed passingPytestOutput stubSearchOracle
        "f").attempts? = some [] ∧
    ((mkDebugger "t" "c").debugUntilFixed passingPytestOutput stubSearchOracle
        "f").searchCalls = 0 ∧
    ((mkDebugger "t" "c").debugUntilFixed passingPytestOutput stubSearchOracle
        "f").fixCalls = 0 :=
  c4_early_success passingPytestOutput stubSearchOracle "t" "c" "f" 5
    (by decide) rfl

/-- C5: Search threshold — in every session, the record for attempt 1 never
carries search context (`search_results` is `none`), and the record for any
attempt number ≥ 2 always carries a search-result string (the search
collaborator having been invoked before that attempt's fix step). -/
theorem c5_search_threshold (po : Nat → String) (so : String → String)
    (t c file : String) (N : Int) (l : List RepairAttempt) (r : RepairAttempt)
    (hl : ((mkDebugger t c N).debugUntilFixed po so file).attempts? = some l)
    (hr : r ∈ l) :
    (r.attemptNumber = 1 → r.searchResults = none) ∧
    (2 ≤ r.attemptNumber → r.searchResults.isSome = true) := by
  simp only [Debugger.debugUntilFixed, mkDebugger] at hl
  exact debugLoop_searchInv po so N N.toNat 1 file [] 0 0 none (by simp) l hl r hr

/-- C5 witness: the attempt-1 record of a concrete failed session has no
search context. -/
theorem c5_search_threshold_witness :
    ((mkDebugger "t" "c" 1).debugUntilFixed failingPytestOutput stubSearchOracle
        "f").attempts? = some [c5AttemptRecord] ∧
    c5AttemptRecord ∈ [c5AttemptRecord] ∧
    ((c5AttemptRecord.attemptNumber = 1 → c5AttemptRecord.searchResults = none) ∧
     (2 ≤ c5AttemptRecord.attemptNumber → c5AttemptRecord.searchResults.isSome = true)) :=
  ⟨by decide, by simp,
    c5_search_threshold failingPytestOutput stubSearchOracle "t" "c" "f" 1
      [c5AttemptRecord] c5AttemptRecord (by decide) (by simp)⟩

/-- C8: max_retries configuration — the retry budget defaults to 5, is
caller-configurable, and a session configured with any value ≤ 0 never runs
an attempt and produces no normal session result (the source's return
statement raises an uncaught local-variable error instead). -/
theorem c8_max_retries_config :
    (∀ t c, (mkDebugger t c).maxRetries = 5) ∧
    (∀ t c m, (mkDebugger t c m).maxRetries = m) ∧
    (∀ (t c file : String) (m : Int) (po : Nat → String) (so : String → String),
      m ≤ 0 →
      ((mkDebugger t c m).debugUntilFixed po so file).status? = none ∧
      ((mkDebugger t c m).debugUntilFixed po so file).searchCalls = 0 ∧
      ((mkDebugger t c m).debugUntilFixed po so file).fixCalls = 0) := by
  refine ⟨fun t c => rfl, fun t c m => rfl, fun t c file m po so hm => ?_⟩
  have hz : m.toNat = 0 := by omega
  simp [Debugger.debugUntilFixed, mkDebugger, hz, debugLoop, SessionOutput.status?]

/-- C8 witness: a budget of −1 yields no normal result and no attempts. -/
theorem c8_max_retries_config_witness :
    (-1 : Int) ≤ 0 ∧
    (((mkDebugger "t" "c" (-1)).debugUntilFixed failingPytestOutput stubSearchOracle
        "f").status? = none ∧
     ((mkDebugger "t" "c" (-1)).debugUntilFixed failingPytestOutput stubSearchOracle
        "f").searchCalls = 0 ∧
     ((mkDebugger "t" "c" (-1)).debugUntilFixed failingPytestOutput stubSearchOracle
        "f").fixCalls = 0) :=
  ⟨by decide,
    c8_max_retries_config.2.2 "t" "c" "f" (-1) failingPytestOutput stubSearchOracle
      (by decide)⟩

/-- C10: Attempt history lags the attempt count on success — when the
verifier first passes at attempt `k` (within the budget), the session
returns status `"success"` with `attempts_count = k` but only `k − 1`
attempt records, one per failed verification; in particular a first-run
success returns count 1 with an empty history. -/
theorem c10_attempts_lag (po : Nat → String) (so : String → String)
    (t c file : String) (N : Int) (k : Nat)
    (hk : 1 ≤ k) (hkN : (k : Int) ≤ N)
    (hfail : ∀ j, 1 ≤ j → j < k → (run_tests_model (po j)).success = false)
    (hpass : (run_tests_model (po k)).success = true) :
    ((mkDebugger t c N).debugUntilFixed po so file).status? = some "success" ∧
    ((mkDebugger t c N).debugUntilFixed po so file).count? = some (k : Int) ∧
    ((mkDebugger t c N).debugUntilFixed po so file).attempts?.map List.length =
      some (k - 1) := by
  simp only [Debugger.debugUntilFixed, mkDebugger]
  have h1k : 1 + (k - 1) = k := by omega
  obtain ⟨H1, H2, H3, _⟩ :=
    debugLoop_firstSuccess po so N (k - 1) 1 N.toNat file [] 0 0 none
      (fun j hj1 hj2 => hfail j hj1 (by omega))
      (by rw [h1k]; exact hpass) (by omega)
  rw [h1k] at H2
  refine ⟨H1, H2, ?_⟩
  simpa using H3

/-- C10 witness: a first-run success returns `attempts_count = 1` with an
empty attempts history. -/
theorem c10_attempts_lag_witness :
    ((mkDebugger "t" "c" 5).debugUntilFixed passingPytestOutput stubSearchOracle
        "f").status? = some "success" ∧
    ((mkDebugger "t" "c" 5).debugUntilFixed passingPytestOutput stubSearchOracle
        "f").count? = some ((1 : Nat) : Int) ∧
    ((mkDebugger "t" "c" 5).debugUntilFixed passingPytestOutput stubSearchOracle
        "f").attempts?.map List.length = some (1 - 1) :=
  c10_attempts_lag passingPytestOutput stubSearchOracle "t" "c" "f" 5 1
    (by decide) (by decide)
    (fun j hj1 hj2 => absurd (Nat.lt_of_le_of_lt hj1 hj2) (Nat.lt_irrefl 1))
    rfl

/-- The excerpt is empty when no line of the output contains a
failure-indicating token. -/
lemma extract_error_message_empty :
    ∀ ls : List String,
      (∀ l ∈ ls, (containsSub "Error" l || containsSub "FAILED" l) = false) →
      extract_error_message ls = "" := by
  intro ls
  induction ls with
  | nil => intro _; rfl
  | cons l rest ih =>
    intro h
    have h1 := h l (by simp)
    cases rest with
    | nil => simp [extract_error_message, h1]
    | cons l2 rest2 =>
      simp only [extract_error_message, h1, Bool.false_eq_true, if_false]
      exact ih (fun x hx => h x (by simp [hx]))

/-- C6 counterexample: on an output where `TypeError` occurs strictly before
`AssertionError`, the claimed earliest-in-text scan picks `TypeError`, but
the code's classifier picks `AssertionError` — the claim's scan order is not
the code's. -/
theorem c6_scan_order_counterexample :
    specScanCategory c6Output = "TypeError" ∧
    (analyze_error c6Output).errorType = "AssertionError" ∧
    specScanCategory c6Output ≠ (analyze_error c6Output).errorType := by
  decide

/-- C6 (amended): the classifier assigns the category by testing the keyword
set in the fixed priority order AssertionError, AttributeError, TypeError,
ValueError, ImportError/ModuleNotFoundError, selecting the first category in
that order whose keyword occurs anywhere in the output — so when two
different failure keywords both occur, the higher-priority one wins
regardless of which appears earlier in the text; `Unknown` when none
occurs. -/
theorem c6_priority_scan (output : String) :
    (analyze_error output).errorType = priorityClassify output := by
  show extract_error_type output = priorityClassify output
  unfold extract_error_type priorityClassify priorityRules
  by_cases h1 : containsSub "AssertionError" output = true <;>
  by_cases h2 : containsSub "AttributeError" output = true <;>
  by_cases h3 : containsSub "TypeError" output = true <;>
  by_cases h4 : containsSub "ValueError" output = true <;>
  by_cases h5 : containsSub "ImportError" output = true <;>
  by_cases h6 : containsSub "ModuleNotFoundError" output = true <;>
  simp_all [List.find?]

/-- C7 counterexample: the output `"FAILED test_foo"` matches no keyword
from the fixed enumeration, so the classification is `Unknown`, yet its
message excerpt is the non-empty `FAILED` line — refuting "Unknown with an
empty excerpt whenever no enumeration pattern is recognized". -/
theorem c7_default_counterexample :
    (analyze_error "FAILED test_foo").errorType = "Unknown" ∧
    (analyze_error "FAILED test_foo").errorMessage ≠ "" := by
  decide

/-- C7 (amended): the classifier is a total deterministic function — every
output receives a category from the fixed enumeration — and whenever no
keyword of the enumeration occurs in the output and additionally no line of
the output contains a failure-indicating token (`"Error"` or `"FAILED"`),
the classification is `Unknown` with an empty excerpt.  (An `Unknown`
category alone does not force an empty excerpt, as the counterexample
shows.) -/
theorem c7_classifier_total_default :
    (∀ output, (analyze_error output).errorType ∈
      (["AssertionError", "AttributeError", "TypeError", "ValueError",
        "ImportError", "Unknown"] : List String)) ∧
    (∀ output,
      containsSub "AssertionError" output = false →
      containsSub "AttributeError" output = false →
      containsSub "TypeError" output = false →
      containsSub "ValueError" output = false →
      containsSub "ImportError" output = false →
      containsSub "ModuleNotFoundError" output = false →
      ((splitNewline output).all
        (fun l => !(containsSub "Error" l || containsSub "FAILED" l))) = true →
      (analyze_error output).errorType = "Unknown" ∧
      (analyze_error output).errorMessage = "") := by
  constructor
  · intro output
    show extract_error_type output ∈ _
    unfold extract_error_type
    split_ifs <;> simp
  · intro output h1 h2 h3 h4 h5 h6 hlines
    constructor
    · show extract_error_type output = "Unknown"
      unfold extract_error_type
      simp [h1, h2, h3, h4, h5, h6]
    · show extract_error_message (splitNewline output) = ""
      refine extract_error_message_empty _ ?_
      intro l hl
      have := List.all_eq_true.mp hlines l hl
      simpa using this

/-- C7 witness: a concrete output with no failure pattern at all is
classified `Unknown` with an empty excerpt. -/
theorem c7_classifier_total_default_witness :
    containsSub "AssertionError" "hello" = false ∧
    ((splitNewline "hello").all
      (fun l => !(containsSub "Error" l || containsSub "FAILED" l))) = true ∧
    ((analyze_error "hello").errorType = "Unknown" ∧
     (analyze_error "hello").errorMessage = "") :=
  ⟨by decide, by decide,
    c7_classifier_total_default.2 "hello" (by decide) (by decide) (by decide)
      (by decide) (by decide) (by decide) (by decide)⟩

/-- Case analysis of the final-recommendation cascade. -/
lemma computeVerdict_spec (critical warnings : List Item) :
    (computeVerdict critical warnings = .REJECT ↔ critical ≠ []) ∧
    (computeVerdict critical warnings = .CONDITIONAL ↔
      (critical = [] ∧ warnings ≠ [])) ∧
    (computeVerdict critical warnings = .APPROVE ↔
      (critical = [] ∧ warnings = [])) := by
  cases critical <;> cases warnings <;> simp [computeVerdict]

/-- C9: Aggregator verdict rule — every `aggregate_reports` call emits
exactly one verdict by the strict priority rule (any critical issue gives
REJECT; otherwise any warning gives CONDITIONAL; otherwise APPROVE), the
critical SQL-injection/low-score scenario yields REJECT with both a security
and a quality item under critical, and the clean scenario yields APPROVE. -/
theorem c9_aggregator_verdict :
    (∀ s q t,
      ((aggregate_reports s q t).verdict = .REJECT ↔
        (aggregate_reports s q t).critical ≠ []) ∧
      ((aggregate_reports s q t).verdict = .CONDITIONAL ↔
        ((aggregate_reports s q t).critical = [] ∧
         (aggregate_reports s q t).warnings ≠ [])) ∧
      ((aggregate_reports s q t).verdict = .APPROVE ↔
        ((aggregate_reports s q t).critical = [] ∧
         (aggregate_reports s q t).warnings = []))) ∧
    (aggregate_reports "Critical: SQL Injection detected" "Score: 3.0/10" "").verdict =
      .REJECT ∧
    (aggregate_reports "Critical: SQL Injection detected" "Score: 3.0/10" "").critical =
      [.securityLine "Critical: SQL Injection detected", .qualityLowScore 30 10] ∧
    (aggregate_reports "No issues." "Score: 9.5/10" "Coverage: 95%").verdict =
      .APPROVE := by
  refine ⟨fun s q t => ?_, by decide, by decide, by decide⟩
  have hv : (aggregate_reports s q t).verdict =
      computeVerdict (aggregate_reports s q t).critical
        (aggregate_reports s q t).warnings := rfl
  rw [hv]
  exact computeVerdict_spec _ _

end DevOpsAgent
